import Mathlib

/-!
# Verification of `examples/ecommerce-support-simulator/lambda/customerMessage/index.ts`

A shallow embedding of the Lambda SQS consumer in
`src/examples/ecommerce-support-simulator/lambda/customerMessage/index.ts`.

The file has two intertwined concerns, modelled separately:

* **Process-level initialization state** (lines 17-18, 53-107): the module-level
  mutable variables `apiKey`, `orchestrator` and `orchestratorPromise`, the SSM
  credential fetch `getApiKeyFromSSM`, and the lazy `initializeOrchestrator`
  guarded by the cached promise in the handler prologue.

* **The per-record consumer loop** (lines 116-153): for each SQS record,
  `JSON.parse` the body, call `routeRequest(body.message, sessionId, sessionId)`,
  publish `{destination: "customer", message: output}` to the delivery queue,
  and catch-and-log any per-record error; finally return
  `{message: "Processed K messages"}`.

External effects (the SSM call, `JSON.parse`, `routeRequest`, `sqs.send`) are
modelled as oracles: each call site receives its externally-determined outcome
as data, and the embedding records the calls the handler makes as an event
trace, so theorems can speak about which calls happen and with which arguments.

JavaScript's event loop runs each invocation synchronously between `await`
points; this is used (and stated where relied on) for the single-flight
initialization model.
-/

deriving instance DecidableEq for Except

/-! ## Orchestrator construction (lines 63-90) -/

/-- The `config` object passed to the `MultiAgentOrchestrator` constructor at
lines 66-74 of the source. -/
structure OrchestratorConfig where
  LOG_AGENT_CHAT : Bool
  LOG_CLASSIFIER_CHAT : Bool
  LOG_CLASSIFIER_RAW_OUTPUT : Bool
  LOG_CLASSIFIER_OUTPUT : Bool
  LOG_EXECUTION_TIMES : Bool
  MAX_MESSAGE_PAIRS_PER_AGENT : Nat
  USE_DEFAULT_AGENT_IF_NONE_IDENTIFIED : Bool
deriving DecidableEq, Repr

/-- The agents registered by `initializeOrchestrator` (lines 78-89).
`orderManagementAgent` and `productInfoAgent` are imported from the sibling
`./agents` module; `humanAgent` is constructed inline at lines 78-83. The
commented-out `aiWithHumanVerificationAgent` (line 90) is never added. Agent
internals are irrelevant to the claims, so agents are opaque tags here. -/
inductive Agent where
  | orderManagementAgent
  | productInfoAgent
  | humanAgent
deriving DecidableEq, Repr

/-- The observable state of the constructed `MultiAgentOrchestrator`: the
classifier's API key (line 64), the `config` literal, and the list of agents
registered via `addAgent`, in registration order. -/
structure MultiAgentOrchestrator where
  classifierApiKey : String
  config : OrchestratorConfig
  agents : List Agent
deriving DecidableEq, Repr

/-- `orchestrator.addAgent(a)` appends one agent to the registry. -/
def MultiAgentOrchestrator.addAgent (o : MultiAgentOrchestrator) (a : Agent) :
    MultiAgentOrchestrator :=
  { o with agents := o.agents ++ [a] }

/-- The `new MultiAgentOrchestrator({...})` call at lines 63-76: the config is
the literal object from the source, with no agents registered yet. -/
def newMultiAgentOrchestrator (apiKey : String) : MultiAgentOrchestrator :=
  { classifierApiKey := apiKey
    config :=
      { LOG_AGENT_CHAT := true
        LOG_CLASSIFIER_CHAT := true
        LOG_CLASSIFIER_RAW_OUTPUT := true
        LOG_CLASSIFIER_OUTPUT := true
        LOG_EXECUTION_TIMES := true
        MAX_MESSAGE_PAIRS_PER_AGENT := 10
        USE_DEFAULT_AGENT_IF_NONE_IDENTIFIED := false }
    agents := [] }

/-- Lines 63-90 as one step: construct the orchestrator and register the three
agents, in source order. -/
def buildOrchestrator (apiKey : String) : MultiAgentOrchestrator :=
  (((newMultiAgentOrchestrator apiKey).addAgent .orderManagementAgent).addAgent
      .productInfoAgent).addAgent .humanAgent

/-! ## The SSM credential fetch (lines 32-51) -/

/-- Externally-determined outcome of the `ssmClient.send(getParameterCommand)`
call: `.error ()` if the request itself throws, otherwise `.ok v` where `v`
is `result.Parameter?.Value` (`none` when the parameter or its value is
absent). -/
abbrev SSMOutcome : Type := Except Unit (Option String)

/-- JavaScript truthiness of `result.Parameter?.Value` as tested by
`if (!retrievedApiKey)` at line 42: `undefined` and the empty string are both
falsy, i.e. count as "no value". -/
def jsFalsyValue : Option String → Bool
  | none => true
  | some s => s = ""

/-- `getApiKeyFromSSM` (lines 32-51). Returns the `console.error` log entries
it emits together with its result. Any failure — the request throwing, or a
falsy `Parameter?.Value` (the inner `throw new Error('API key not found in
SSM')` at line 43) — lands in the `catch` at lines 47-50, which logs the error
and rethrows `Error('Failed to retrieve API key')`. -/
def getApiKeyFromSSM (ssm : SSMOutcome) : List String × Except String String :=
  match ssm with
  | .error _ =>
      (["Error retrieving API key from SSM:"], .error "Failed to retrieve API key")
  | .ok v =>
      if jsFalsyValue v then
        (["Error retrieving API key from SSM:"], .error "Failed to retrieve API key")
      else
        ([], .ok (v.getD ""))

/-! ## Lazy initialization state (lines 17-18, 53-107) -/

/-- The module-level mutable initialization state: `apiKey` (line 17) and
`orchestrator` (line 18), plus instrumentation counters recording how many SSM
fetches and how many agent-registration sequences have run (these counters are
not program state; they count external effects for the theorems). -/
structure InitState where
  apiKey : Option String
  orchestrator : Option MultiAgentOrchestrator
  fetchCount : Nat
  regCount : Nat
deriving DecidableEq, Repr

/-- The second half of `initializeOrchestrator` (lines 60-93): build and cache
the orchestrator if not already cached, then return it. -/
def initializeOrchestratorBuild (k : String) (s : InitState) :
    InitState × Except String MultiAgentOrchestrator :=
  match s.orchestrator with
  | some o => (s, .ok o)
  | none =>
      let o := buildOrchestrator k
      ({ s with orchestrator := some o, regCount := s.regCount + 1 }, .ok o)

/-- `initializeOrchestrator` (lines 54-94), given the outcome of the SSM call
it would make. Mirrors the source: fetch the API key only if `apiKey` is not
yet cached (lines 56-58) — a thrown fetch error propagates out, rejecting the
returned promise — then construct and cache the orchestrator only if not yet
cached (lines 60-91), and return it (line 93). -/
def initializeOrchestrator (ssm : SSMOutcome) (s : InitState) :
    InitState × Except String MultiAgentOrchestrator :=
  match s.apiKey with
  | some k => initializeOrchestratorBuild k s
  | none =>
      match (getApiKeyFromSSM ssm).2 with
      | .error e => ({ s with fetchCount := s.fetchCount + 1 }, .error e)
      | .ok k =>
          initializeOrchestratorBuild k
            { s with apiKey := some k, fetchCount := s.fetchCount + 1 }

/-- Process-wide state visible to the handler prologue: the init state plus
`orchestratorPromise` (line 97). In this sequential model the cached promise is
represented by its settled result: `some (.ok o)` for a resolved promise,
`some (.error e)` for a rejected one, `none` when no promise exists yet. The
source never resets `orchestratorPromise`, so a settled promise — resolved or
rejected — stays cached for the process lifetime. -/
structure ProcState where
  init : InitState
  orchestratorPromise : Option (Except String MultiAgentOrchestrator)
deriving DecidableEq, Repr

/-- A fresh process: both caches empty, no promise, no effects counted. -/
def freshProc : ProcState :=
  { init := { apiKey := none, orchestrator := none, fetchCount := 0, regCount := 0 }
    orchestratorPromise := none }

/-- The handler prologue (lines 103-107): create the initialization promise if
absent, then `await` it. Awaiting the cached promise yields its settled result
— rethrowing the cached rejection if initialization failed. -/
def handlerAcquire (ssm : SSMOutcome) (p : ProcState) :
    ProcState × Except String MultiAgentOrchestrator :=
  match p.orchestratorPromise with
  | some r => (p, r)
  | none =>
      let res := initializeOrchestrator ssm p.init
      ({ init := res.1, orchestratorPromise := some res.2 }, res.2)

/-! ## The per-record consumer loop (lines 116-153) -/

/-- What the handler observes from `JSON.parse(record.body)` (line 119) and the
subsequent property reads: either the parse throws (`failure`), or it yields
`null` (valid JSON on which reading `.sessionId` at line 120 throws a
`TypeError`), or it yields a value whose `sessionId` and `message` properties
are as given — `none` modelling an absent property read as `undefined`. -/
inductive ParseOutcome where
  | failure
  | nullValue
  | value (sessionId : Option String) (message : Option String)
deriving DecidableEq, Repr

/-- The routing result as consumed by the handler: only its `output` field is
read (line 134). -/
structure RouteResponse where
  output : String
deriving DecidableEq, Repr

/-- Externally-determined outcomes for one record: the parse outcome of its
body, the settlement of the `routeRequest` promise were it awaited, and the
settlement of the `sqs.send` promise were it awaited. -/
structure RecordEnv where
  parse : ParseOutcome
  routeResult : Except String RouteResponse
  sendResult : Except String Unit
deriving DecidableEq, Repr

/-- The outbound payload constructed at lines 132-135 and serialized into the
`SendMessageCommand` body. -/
structure OutboundMessage where
  destination : String
  message : String
deriving DecidableEq, Repr

/-- Observable events of processing one record: a `routeRequest` call with its
three arguments `(body.message, sessionId, sessionId)` (lines 124-128), an
`sqs.send` of an outbound payload to the delivery queue (lines 138-143), and a
`console.error('Error processing record:', e)` from the catch (line 146). -/
inductive RecordEvent where
  | routeCall (message : Option String) (userId : Option String)
      (sessionId : Option String)
  | send (m : OutboundMessage)
  | logError (e : String)
deriving DecidableEq, Repr

/-- The `try` block of the loop body (lines 117-144): the events emitted, and
`.error e` when some step throws `e` (the parse, the property read on `null`,
the `routeRequest` await, or the `sqs.send` await). -/
def tryProcessRecord (env : RecordEnv) : List RecordEvent × Except String Unit :=
  match env.parse with
  | .failure => ([], .error "SyntaxError: Unexpected token in JSON")
  | .nullValue => ([], .error "TypeError: Cannot read properties of null")
  | .value sessionId message =>
      let callEv := RecordEvent.routeCall message sessionId sessionId
      match env.routeResult with
      | .error e => ([callEv], .error e)
      | .ok resp =>
          let outMsg : OutboundMessage :=
            { destination := "customer", message := resp.output }
          match env.sendResult with
          | .error e => ([callEv, .send outMsg], .error e)
          | .ok _ => ([callEv, .send outMsg], .ok ())

/-- One full loop iteration (lines 116-149): run the `try` block; the `catch`
(lines 145-148) logs the error and falls through, so a failing record
contributes its partial events plus one `logError` and the loop continues. -/
def processRecord (env : RecordEnv) : List RecordEvent :=
  match tryProcessRecord env with
  | (evs, .ok _) => evs
  | (evs, .error e) => evs ++ [.logError e]

/-- The `for (const record of event.Records)` loop: records processed
sequentially, each by `processRecord`. -/
def handlerLoop : List RecordEnv → List RecordEvent
  | [] => []
  | r :: rest => processRecord r ++ handlerLoop rest

/-- What one handler invocation returns (line 151-153) together with the events
of its loop. -/
structure HandlerOutput where
  events : List RecordEvent
  message : String
deriving DecidableEq, Repr

/-- The loop-and-return part of the handler (lines 116-153), given the batch of
records with their external outcomes. -/
def handlerBatch (batch : List RecordEnv) : HandlerOutput :=
  { events := handlerLoop batch
    message := "Processed " ++ toString batch.length ++ " messages" }

/-- A full handler invocation (lines 99-154): acquire the orchestrator via the
cached promise (an initialization rejection rethrows out of the handler, lines
103-107), then run the record loop and return the summary. `QUEUE_URL` is
assumed set (its absence is a fatal module-load error, lines 20-22). -/
def handlerInvoke (ssm : SSMOutcome) (batch : List RecordEnv) (p : ProcState) :
    ProcState × Except String HandlerOutput :=
  match (handlerAcquire ssm p).2 with
  | .error e => ((handlerAcquire ssm p).1, .error e)
  | .ok _ => ((handlerAcquire ssm p).1, .ok (handlerBatch batch))

/-- A sequence of sequential handler invocations in one process, each with its
own SSM-call outcome and batch; returns the final process state. -/
def runProcess : List (SSMOutcome × List RecordEnv) → ProcState → ProcState
  | [], p => p
  | (ssm, batch) :: rest, p => runProcess rest (handlerInvoke ssm batch p).1

/-! ## Concurrent first invocations (lines 103-105)

JavaScript invocations interleave only at `await` points. The prologue's
null-check of `orchestratorPromise` and the assignment
`orchestratorPromise = initializeOrchestrator()` (lines 103-105) contain no
intervening `await`, so each invocation's check-and-assign runs atomically
with respect to the other invocations; the interleaving of N concurrent
first invocations is therefore a sequence of these atomic begin-steps. -/

/-- Process state as seen by concurrently beginning invocations:
`orchestratorPromise` holds the id of the single created promise (if any),
and `initStarts` lists the ids of the `initializeOrchestrator` calls made, in
order. -/
structure ConcState where
  orchestratorPromise : Option Nat
  initStarts : List Nat
deriving DecidableEq, Repr

/-- The atomic prologue step of one invocation (lines 103-105): if no promise
exists, call `initializeOrchestrator` (starting initialization number
`initStarts.length`) and cache its promise; either way, return the id of the
promise this invocation will `await`. -/
def beginInvocation (c : ConcState) : ConcState × Nat :=
  match c.orchestratorPromise with
  | some pid => (c, pid)
  | none =>
      let pid := c.initStarts.length
      ({ orchestratorPromise := some pid, initStarts := c.initStarts ++ [pid] }, pid)

/-- `n` invocations beginning in some interleaving (order is immaterial: each
begin-step is atomic); returns the final state and, per invocation, the id of
the promise it awaits. -/
def beginAll : Nat → ConcState → ConcState × List Nat
  | 0, c => (c, [])
  | n + 1, c =>
      let (c2, pid) := beginInvocation c
      let (c3, pids) := beginAll n c2
      (c3, pid :: pids)

/-- A fresh process, before any invocation begins. -/
def freshConc : ConcState := { orchestratorPromise := none, initStarts := [] }

/-! ## Sample inputs used to instantiate theorems -/

/-- A record whose body parses to `{sessionId: "abc", message: "Where is my
order?"}`, whose routing succeeds and whose publish succeeds. -/
def sampleParsedRecord : RecordEnv :=
  { parse := .value (some "abc") (some "Where is my order?")
    routeResult := .ok { output := "Your order is on its way." }
    sendResult := .ok () }

/-- A record whose body is malformed JSON; its downstream oracles are
irrelevant since they are never consulted. -/
def sampleBadJsonRecord : RecordEnv :=
  { parse := .failure
    routeResult := .ok { output := "unused" }
    sendResult := .ok () }

/-! ## Helper lemmas -/

/-- The loop over a concatenated batch is the concatenation of the loops. -/
theorem handlerLoop_append (xs ys : List RecordEnv) :
    handlerLoop (xs ++ ys) = handlerLoop xs ++ handlerLoop ys := by
  induction xs with
  | nil => rfl
  | cons r rest ih => simp [handlerLoop, ih]

/-- Events of any record in the batch appear in the loop's trace. -/
theorem mem_handlerLoop_of_mem {batch : List RecordEnv} {env : RecordEnv}
    {x : RecordEvent} (henv : env ∈ batch) (hx : x ∈ processRecord env) :
    x ∈ handlerLoop batch := by
  induction batch with
  | nil => cases henv
  | cons r rest ih =>
      rcases List.mem_cons.mp henv with h | h
      · subst h; exact List.mem_append.mpr (Or.inl hx)
      · exact List.mem_append.mpr (Or.inr (ih h))

/-- Every `routeRequest` call a record emits passes the parsed `sessionId` as
both identity arguments. -/
theorem routeCall_eq_of_mem_processRecord {env : RecordEnv}
    {m u s : Option String}
    (h : RecordEvent.routeCall m u s ∈ processRecord env) :
    u = s := by
  rcases env with ⟨parse, routeResult, sendResult⟩
  rcases parse with _ | _ | ⟨sid, msg⟩ <;>
    rcases routeResult with e | resp <;>
    rcases sendResult with e2 | u2 <;>
    simp [processRecord, tryProcessRecord] at h <;>
    (rcases h with ⟨hm, hu, hs⟩; exact hu.trans hs.symm)


/-- Invocations after the promise exists leave the process state unchanged. -/
theorem handlerInvoke_fst_of_isSome {p : ProcState}
    (h : p.orchestratorPromise.isSome) (ssm : SSMOutcome)
    (batch : List RecordEnv) : (handlerInvoke ssm batch p).1 = p := by
  rcases hp : p.orchestratorPromise with _ | r
  · rw [hp] at h; cases h
  · rcases r with e | o <;> simp [handlerInvoke, handlerAcquire, hp]

/-- Running any further invocations from a state whose promise exists is a
no-op on the process state. -/
theorem runProcess_of_isSome {p : ProcState} (h : p.orchestratorPromise.isSome)
    (invs : List (SSMOutcome × List RecordEnv)) : runProcess invs p = p := by
  induction invs with
  | nil => rfl
  | cons i rest ih =>
      rcases i with ⟨ssm, batch⟩
      rw [runProcess, handlerInvoke_fst_of_isSome h, ih]

/-- After the first invocation the promise exists. -/
theorem handlerInvoke_isSome (ssm : SSMOutcome) (batch : List RecordEnv)
    (p : ProcState) : ((handlerInvoke ssm batch p).1).orchestratorPromise.isSome := by
  rcases hp : p.orchestratorPromise with _ | r
  · unfold handlerInvoke handlerAcquire
    rw [hp]
    rcases (initializeOrchestrator ssm p.init).2 with e | o <;> simp
  · rcases r with e | o <;> simp [handlerInvoke, handlerAcquire, hp]

/-- The first invocation in a fresh process performs exactly one SSM fetch,
whatever its outcome. -/
theorem handlerInvoke_fresh_fetchCount (ssm : SSMOutcome)
    (batch : List RecordEnv) :
    ((handlerInvoke ssm batch freshProc).1).init.fetchCount = 1 := by
  rcases ssm with u | v
  · rfl
  · rcases v with _ | s
    · rfl
    · unfold handlerInvoke handlerAcquire initializeOrchestrator getApiKeyFromSSM
        freshProc
      by_cases hs : s = "" <;>
        simp [hs, jsFalsyValue, initializeOrchestratorBuild]

/-- Running invocations over a concatenation runs them in sequence. -/
theorem runProcess_append (xs ys : List (SSMOutcome × List RecordEnv))
    (p : ProcState) : runProcess (xs ++ ys) p = runProcess ys (runProcess xs p) := by
  induction xs generalizing p with
  | nil => rfl
  | cons i rest ih => rcases i with ⟨ssm, batch⟩; rw [List.cons_append,
      runProcess, runProcess, ih]

/-- Once one concurrent invocation has begun, every further begin-step is a
no-op that awaits the same promise `0`. -/
theorem beginAll_after (m : Nat) :
    beginAll m { orchestratorPromise := some 0, initStarts := [0] } =
      ({ orchestratorPromise := some 0, initStarts := [0] }, List.replicate m 0) := by
  induction m with
  | zero => rfl
  | succ k ih => simp [beginAll, beginInvocation, ih, List.replicate_succ]

/-! ## Claim theorems -/

/-- C1: for every batch, if processing one record fails at any point (the
JSON parse, the `routeRequest` call, or the publish to the delivery queue),
the error is caught and logged (`logError` appended by the `catch`) and every
remaining record is still processed — the loop's trace decomposes per record
and the handler still returns its summary, so no per-record failure aborts the
batch or propagates out of the handler. -/
theorem claim_C1_per_record_failure_isolated (pre post : List RecordEnv)
    (r : RecordEnv) (evs : List RecordEvent) (e : String)
    (h : tryProcessRecord r = (evs, .error e)) :
    processRecord r = evs ++ [RecordEvent.logError e] ∧
    handlerLoop (pre ++ r :: post) =
      handlerLoop pre ++ (evs ++ [RecordEvent.logError e]) ++ handlerLoop post ∧
    (handlerBatch (pre ++ r :: post)).message =
      "Processed " ++ toString (pre.length + post.length + 1) ++ " messages" := by
  have hp : processRecord r = evs ++ [RecordEvent.logError e] := by
    unfold processRecord; rw [h]
  have hlen : (pre ++ r :: post).length = pre.length + post.length + 1 := by
    rw [List.length_append, List.length_cons]; omega
  refine ⟨hp, ?_, ?_⟩
  · rw [handlerLoop_append, handlerLoop, hp]
    simp [List.append_assoc]
  · simp [handlerBatch, hlen]

/-- Witness for C1 on a concrete three-record batch whose middle record has a
malformed body. -/
theorem claim_C1_witness :
    processRecord sampleBadJsonRecord =
      [] ++ [RecordEvent.logError "SyntaxError: Unexpected token in JSON"] ∧
    handlerLoop ([sampleParsedRecord] ++ sampleBadJsonRecord :: [sampleParsedRecord]) =
      handlerLoop [sampleParsedRecord] ++
        ([] ++ [RecordEvent.logError "SyntaxError: Unexpected token in JSON"]) ++
        handlerLoop [sampleParsedRecord] ∧
    (handlerBatch
        ([sampleParsedRecord] ++ sampleBadJsonRecord :: [sampleParsedRecord])).message =
      "Processed " ++
        toString ([sampleParsedRecord].length + [sampleParsedRecord].length + 1) ++
        " messages" :=
  claim_C1_per_record_failure_isolated [sampleParsedRecord] [sampleParsedRecord]
    sampleBadJsonRecord [] "SyntaxError: Unexpected token in JSON" rfl

/-- C2 counterexample: the first invocation's initialization fails (the SSM
request throws), and even though the SSM store would return a value on a
subsequent invocation, that invocation still receives the very same cached
failure and performs no new fetch — the claim that a subsequent invocation
"re-attempts initialization rather than receiving the same cached failure" is
false of the code: `orchestratorPromise` is never reset after rejection. -/
theorem claim_C2_counterexample :
    (handlerInvoke (.error ()) [] freshProc).2 =
      .error "Failed to retrieve API key" ∧
    (handlerInvoke (.ok (some "sk-recovered")) []
        (handlerInvoke (.error ()) [] freshProc).1).2 =
      .error "Failed to retrieve API key" ∧
    ((handlerInvoke (.ok (some "sk-recovered")) []
        (handlerInvoke (.error ()) [] freshProc).1).1).init.fetchCount = 1 :=
  ⟨rfl, rfl, rfl⟩

/-- C2 amended: if the first handler invocation's initialization fails, the
error does propagate to that caller — but the rejected promise remains cached
in `orchestratorPromise`, so every subsequent invocation in the same process
awaits the same cached rejected promise and receives the identical failure,
with no re-attempt of initialization (the process state, including the fetch
counter, is unchanged). -/
theorem claim_C2_amended (ssm1 : SSMOutcome) (batch1 : List RecordEnv)
    (e : String)
    (h : (initializeOrchestrator ssm1 freshProc.init).2 = .error e) :
    (handlerInvoke ssm1 batch1 freshProc).2 = .error e ∧
    ∀ ssm2 batch2,
      handlerInvoke ssm2 batch2 (handlerInvoke ssm1 batch1 freshProc).1 =
        ((handlerInvoke ssm1 batch1 freshProc).1, .error e) := by
  have ha : handlerAcquire ssm1 freshProc =
      ({ init := (initializeOrchestrator ssm1 freshProc.init).1,
         orchestratorPromise := some (Except.error e) }, Except.error e) := by
    unfold handlerAcquire
    simp only [freshProc] at h ⊢
    simp [h]
  have hinv : handlerInvoke ssm1 batch1 freshProc =
      ({ init := (initializeOrchestrator ssm1 freshProc.init).1,
         orchestratorPromise := some (Except.error e) }, Except.error e) := by
    unfold handlerInvoke
    rw [ha]
  refine ⟨by rw [hinv], ?_⟩
  intro ssm2 batch2
  rw [hinv]
  unfold handlerInvoke handlerAcquire
  simp

/-- Witness for the amended C2 at a concrete failing first fetch followed by a
would-succeed second fetch. -/
theorem claim_C2_amended_witness :
    (handlerInvoke (.error ()) [] freshProc).2 =
      .error "Failed to retrieve API key" ∧
    handlerInvoke (.ok (some "sk-2")) []
        (handlerInvoke (.error ()) [] freshProc).1 =
      ((handlerInvoke (.error ()) [] freshProc).1,
        .error "Failed to retrieve API key") :=
  ⟨(claim_C2_amended (.error ()) [] "Failed to retrieve API key" rfl).1,
    (claim_C2_amended (.error ()) [] "Failed to retrieve API key" rfl).2
      (.ok (some "sk-2")) []⟩

/-- C3: if `n ≥ 1` handler invocations begin concurrently in a fresh process,
exactly one `initializeOrchestrator` call is made (one initialization promise,
which every invocation awaits and shares), and that single initialization —
with a successful SSM fetch of a non-empty key — performs exactly one
credential fetch and one agent-registration sequence. The begin-step (the
null-check and assignment of `orchestratorPromise`, lines 103-105) is atomic
under the JS event loop since it contains no intervening `await`. -/
theorem claim_C3_single_flight_init (n : Nat) (s : String)
    (hn : 1 ≤ n) (hs : s ≠ "") :
    (beginAll n freshConc).1.initStarts = [0] ∧
    (beginAll n freshConc).2 = List.replicate n 0 ∧
    (initializeOrchestrator (.ok (some s)) freshProc.init).1.fetchCount = 1 ∧
    (initializeOrchestrator (.ok (some s)) freshProc.init).1.regCount = 1 := by
  obtain ⟨m, rfl⟩ : ∃ m, n = m + 1 := ⟨n - 1, by omega⟩
  have hbegin : beginAll (m + 1) freshConc =
      ({ orchestratorPromise := some 0, initStarts := [0] },
        List.replicate (m + 1) 0) := by
    have h1 : beginInvocation freshConc =
        ({ orchestratorPromise := some 0, initStarts := [0] }, 0) := rfl
    rw [beginAll]
    simp [h1, beginAll_after, List.replicate_succ]
  have hinit : initializeOrchestrator (.ok (some s)) freshProc.init =
      ({ apiKey := some s, orchestrator := some (buildOrchestrator s),
         fetchCount := 1, regCount := 1 }, .ok (buildOrchestrator s)) := by
    unfold initializeOrchestrator getApiKeyFromSSM freshProc
    simp [jsFalsyValue, hs, initializeOrchestratorBuild]
  exact ⟨by rw [hbegin], by rw [hbegin], by rw [hinit], by rw [hinit]⟩

/-- Witness for C3 with three concurrent first invocations and the key
`"sk-test"`. -/
theorem claim_C3_witness :
    (beginAll 3 freshConc).1.initStarts = [0] ∧
    (beginAll 3 freshConc).2 = List.replicate 3 0 ∧
    (initializeOrchestrator (.ok (some "sk-test")) freshProc.init).1.fetchCount = 1 ∧
    (initializeOrchestrator (.ok (some "sk-test")) freshProc.init).1.regCount = 1 :=
  claim_C3_single_flight_init 3 "sk-test" (by omega) (by decide)

/-- C4: for every batch of K records, the record loop returns the summary
`{message: "Processed K messages"}` where K counts all records in the batch
(failures included — the count never depends on per-record outcomes), and a
full invocation either returns exactly that summary object or rethrows an
initialization error; the result is a returned value, not a process exit
code. -/
theorem claim_C4_processed_count (ssm : SSMOutcome) (batch : List RecordEnv)
    (p : ProcState) :
    (handlerBatch batch).message =
      "Processed " ++ toString batch.length ++ " messages" ∧
    ((handlerInvoke ssm batch p).2 = .ok (handlerBatch batch) ∨
      ∃ e, (handlerInvoke ssm batch p).2 = .error e) := by
  refine ⟨rfl, ?_⟩
  rcases h2 : (handlerAcquire ssm p).2 with e | o
  · exact Or.inr ⟨e, by simp [handlerInvoke, h2]⟩
  · exact Or.inl (by simp [handlerInvoke, h2])

/-- C5: for every record of a batch whose body parses and whose `routeRequest`
call succeeds with response `resp`, the handler sends exactly one outbound
message for that record, with exactly the payload
`{destination: "customer", message: resp.output}`, to the delivery queue. -/
theorem claim_C5_publish_payload (batch : List RecordEnv) (env : RecordEnv)
    (sid msg : Option String) (resp : RouteResponse)
    (sendR : Except String Unit) (henv : env ∈ batch)
    (hshape : env = ⟨.value sid msg, .ok resp, sendR⟩) :
    RecordEvent.send ⟨"customer", resp.output⟩ ∈ (handlerBatch batch).events ∧
    (processRecord env).filter
        (fun ev => match ev with | .send _ => true | _ => false) =
      [RecordEvent.send ⟨"customer", resp.output⟩] := by
  subst hshape
  have hmem : RecordEvent.send ⟨"customer", resp.output⟩ ∈
      processRecord ⟨.value sid msg, .ok resp, sendR⟩ := by
    rcases sendR with e | u <;> simp [processRecord, tryProcessRecord]
  refine ⟨mem_handlerLoop_of_mem henv hmem, ?_⟩
  rcases sendR with e | u <;> simp [processRecord, tryProcessRecord]

/-- Witness for C5 on a concrete one-record batch. -/
theorem claim_C5_witness :
    RecordEvent.send ⟨"customer", "Your order is on its way."⟩ ∈
      (handlerBatch [sampleParsedRecord]).events ∧
    (processRecord sampleParsedRecord).filter
        (fun ev => match ev with | .send _ => true | _ => false) =
      [RecordEvent.send ⟨"customer", "Your order is on its way."⟩] :=
  claim_C5_publish_payload [sampleParsedRecord] sampleParsedRecord
    (some "abc") (some "Where is my order?")
    { output := "Your order is on its way." } (.ok ())
    (List.mem_singleton.mpr rfl) rfl

/-- C6: in any process, the credential is fetched at most once — over any
sequence of sequential handler invocations with arbitrary SSM outcomes and
batches, the fetch counter never exceeds one — and once `apiKey` holds a
fetched value it is reused unmodified by all later invocations, never
re-fetched or invalidated for the remaining process lifetime. -/
theorem claim_C6_credential_single_fetch
    (invs : List (SSMOutcome × List RecordEnv)) :
    (runProcess invs freshProc).init.fetchCount ≤ 1 ∧
    ∀ (k : String) (more : List (SSMOutcome × List RecordEnv)),
      (runProcess invs freshProc).init.apiKey = some k →
      (runProcess (invs ++ more) freshProc).init.apiKey = some k := by
  rcases invs with _ | ⟨⟨ssm, batch⟩, rest⟩
  · refine ⟨by simp [runProcess, freshProc], ?_⟩
    intro k more h
    simp [runProcess, freshProc] at h
  · have hsome := handlerInvoke_isSome ssm batch freshProc
    have hfirst : runProcess ((ssm, batch) :: rest) freshProc =
        (handlerInvoke ssm batch freshProc).1 := by
      rw [runProcess, runProcess_of_isSome hsome]
    constructor
    · rw [hfirst, handlerInvoke_fresh_fetchCount]
    · intro k more h
      rw [List.cons_append, runProcess, runProcess_append,
        runProcess_of_isSome hsome, runProcess_of_isSome hsome]
      rw [hfirst] at h
      exact h

/-- Witness for C6: one successful-fetch invocation followed by one with a
failing SSM environment still leaves the originally fetched key cached. -/
theorem claim_C6_witness :
    (runProcess [(Except.ok (some "sk-1"), [])] freshProc).init.fetchCount ≤ 1 ∧
    (runProcess ([(Except.ok (some "sk-1"), [])] ++ [(Except.error (), [])])
        freshProc).init.apiKey = some "sk-1" :=
  ⟨(claim_C6_credential_single_fetch [(Except.ok (some "sk-1"), [])]).1,
    (claim_C6_credential_single_fetch [(Except.ok (some "sk-1"), [])]).2
      "sk-1" [(Except.error (), [])] rfl⟩

/-- C7: every `routeRequest` call made while processing a batch passes the
record's parsed `sessionId` as both the user-identity argument and the
session/history-key argument — a single identity, never two distinct
values. -/
theorem claim_C7_single_identity (batch : List RecordEnv)
    (m u s : Option String)
    (h : RecordEvent.routeCall m u s ∈ (handlerBatch batch).events) :
    u = s := by
  have hloop : RecordEvent.routeCall m u s ∈ handlerLoop batch := h
  clear h
  induction batch with
  | nil => cases hloop
  | cons r rest ih =>
      rw [handlerLoop] at hloop
      rcases List.mem_append.mp hloop with h1 | h1
      · exact routeCall_eq_of_mem_processRecord h1
      · exact ih h1

/-- Witness for C7 on a concrete one-record batch. -/
theorem claim_C7_witness : (some "abc" : Option String) = some "abc" :=
  claim_C7_single_identity [sampleParsedRecord] (some "Where is my order?")
    (some "abc") (some "abc") (by decide)

/-- C8: the orchestrator is constructed with the default-agent fallback
disabled and a per-agent history window of 10 message pairs, whatever API key
initialization fetched. -/
theorem claim_C8_config_defaults (apiKey : String) :
    (buildOrchestrator apiKey).config.USE_DEFAULT_AGENT_IF_NONE_IDENTIFIED
        = false ∧
    (buildOrchestrator apiKey).config.MAX_MESSAGE_PAIRS_PER_AGENT = 10 :=
  ⟨rfl, rfl⟩

/-- C9: `getApiKeyFromSSM` returns the retrieved secret string whenever the
parameter store yields a (non-falsy) value, and fails exactly when the store
returns no value (`undefined`, or the falsy empty string) or the fetch call
itself errors; in every failure case the error is logged via `console.error`
and surfaced to the caller as the rethrown
`Error('Failed to retrieve API key')`. -/
theorem claim_C9_ssm_contract (ssm : SSMOutcome) :
    (∀ s, ssm = .ok (some s) → s ≠ "" → getApiKeyFromSSM ssm = ([], .ok s)) ∧
    ((getApiKeyFromSSM ssm).2.isOk = false ↔
      ssm = .error () ∨ ssm = .ok none ∨ ssm = .ok (some "")) ∧
    ((getApiKeyFromSSM ssm).2.isOk = false →
      getApiKeyFromSSM ssm =
        (["Error retrieving API key from SSM:"],
          .error "Failed to retrieve API key")) := by
  rcases ssm with u | v
  · cases u
    refine ⟨?_, ?_, ?_⟩ <;> simp [getApiKeyFromSSM, Except.isOk, Except.toBool]
  · rcases v with _ | s
    · refine ⟨?_, ?_, ?_⟩ <;> simp [getApiKeyFromSSM, jsFalsyValue, Except.isOk, Except.toBool]
    · by_cases hs : s = ""
      · subst hs
        refine ⟨?_, ?_, ?_⟩ <;>
          simp [getApiKeyFromSSM, jsFalsyValue, Except.isOk, Except.toBool]
      · refine ⟨?_, ?_, ?_⟩ <;>
          simp [getApiKeyFromSSM, jsFalsyValue, hs, Except.isOk, Except.toBool]

/-- Witness for C9: a concrete successful fetch returns the stored secret with
no error log. -/
theorem claim_C9_witness :
    getApiKeyFromSSM (.ok (some "sk-abc")) = ([], .ok "sk-abc") :=
  (claim_C9_ssm_contract (.ok (some "sk-abc"))).1 "sk-abc" rfl (by decide)

/-- C10: a record whose body parses but lacks the `sessionId` or `message`
property is not rejected as malformed: the loop's first action for it is still
the `routeRequest` call, with `undefined` (modelled `none`) passed for the
missing field(s), and the record fails only when the downstream `routeRequest`
or publish call fails — there is no payload validation in the consumer
loop. -/
theorem claim_C10_missing_fields (sid msg : Option String)
    (routeR : Except String RouteResponse) (sendR : Except String Unit)
    (hmissing : sid = none ∨ msg = none) :
    (processRecord ⟨.value sid msg, routeR, sendR⟩).head? =
      some (RecordEvent.routeCall msg sid sid) ∧
    ((∃ e, RecordEvent.logError e ∈
        processRecord ⟨.value sid msg, routeR, sendR⟩) ↔
      (∃ e, routeR = .error e) ∨ ∃ e, sendR = .error e) := by
  rcases routeR with e | resp <;> rcases sendR with e2 | u2 <;>
    simp [processRecord, tryProcessRecord]

/-- Witness for C10: a body parsing to `{message: "hi"}` (no `sessionId`) is
routed with `none` as both identity arguments and does not fail. -/
theorem claim_C10_witness :
    (processRecord ⟨.value none (some "hi"),
        .ok { output := "reply" }, .ok ()⟩).head? =
      some (RecordEvent.routeCall (some "hi") none none) ∧
    ((∃ e, RecordEvent.logError e ∈
        processRecord ⟨.value none (some "hi"),
          .ok { output := "reply" }, .ok ()⟩) ↔
      (∃ e, (Except.ok { output := "reply" } : Except String RouteResponse) =
          .error e) ∨
        ∃ e, (Except.ok () : Except String Unit) = .error e) :=
  claim_C10_missing_fields none (some "hi") (.ok { output := "reply" })
    (.ok ()) (Or.inl rfl)
